import Mathlib

/-!
Verification of the air-quality monitor control loop (`src/main.py`).

The embedding is shallow: the pure numeric pipeline is translated over `ℚ`
(the source computes with IEEE doubles; the constants and comparisons here
are exact, so `ℚ` reproduces the branch structure faithfully), the gas
power-law estimate lands in `Option ℝ` (`math.pow` is real-valued and can
raise), the dust sampler's hardware interaction is reified as a trace of
effects, and the main loop's e-mail logic is an explicit step function on
the two boolean flags it carries across ticks.
-/

namespace AirMonitor

/-! ## Calibration configuration (src/main.py lines 32-60) -/

def R0_CALIBRATION_COMPLETE : Bool := true

/-- Calibrated clean-air reference resistance, in kOhm. -/
def R0_CLEAN_AIR : ℚ := 10

/-- Load resistor value, in kOhm. -/
def R_LOAD : ℚ := 10

/-- Power-law formula constant (PPM = A * (Rs/R0)^B). -/
def A : ℝ := 110

/-- Power-law formula constant, non-integral and negative. -/
def B : ℝ := -2.65

def VOLTAGE_RESOLUTION : ℚ := 3.3

def ADC_MAX : ℚ := 4095

/-- Microseconds to wait after LED ON before reading. -/
def SAMPLING_TIME : ℕ := 280

/-- Total time the LED is ON, in microseconds. -/
def PULSE_WIDTH : ℕ := 320

/-- Microseconds to wait for the rest of the 10 ms cycle. -/
def SLEEP_TIME : ℕ := 9680

/-- Dust/particulate density threshold (mg/m^3). -/
def DUSTY_THRESHOLD : ℚ := 0.15

/-- Smoke/heavy pollution threshold (mg/m^3). -/
def SMOKE_THRESHOLD : ℚ := 0.50

/-! ## Quality levels (the strings returned by the two classifiers) -/

/-- Result values of `classify_gas_quality` ("GOOD" / "MODERATE" / "BAD"). -/
inductive GasQuality
  | GOOD
  | MODERATE
  | BAD
  deriving DecidableEq, Fintype, Repr

/-- Result values of `classify_dust_quality`
("CLEAN" / "DUSTY/MODERATE" / "SMOKE/CRITICAL"). -/
inductive DustQuality
  | CLEAN
  | DUSTY_MODERATE
  | SMOKE_CRITICAL
  deriving DecidableEq, Fintype, Repr

/-- src/main.py lines 245-252: classify air quality from CO2-equivalent PPM. -/
def classify_gas_quality (ppm : ℚ) : GasQuality :=
  if ppm ≤ 800 then .GOOD
  else if ppm ≤ 1500 then .MODERATE
  else .BAD

/-- src/main.py lines 212-221: classify air from dust/particulate density. -/
def classify_dust_quality (density : ℚ) : DustQuality :=
  if SMOKE_THRESHOLD ≤ density then .SMOKE_CRITICAL
  else if DUSTY_THRESHOLD ≤ density then .DUSTY_MODERATE
  else .CLEAN

/-- Severity rank of a gas class: GOOD < MODERATE < BAD. -/
def gas_severity : GasQuality → ℕ
  | .GOOD => 0
  | .MODERATE => 1
  | .BAD => 2

/-- Severity rank of a dust class: CLEAN < DUSTY_MODERATE < SMOKE_CRITICAL. -/
def dust_severity : DustQuality → ℕ
  | .CLEAN => 0
  | .DUSTY_MODERATE => 1
  | .SMOKE_CRITICAL => 2

/-! ## Gas pipeline (src/main.py lines 223-243) -/

/-- src/main.py lines 223-231: sensor resistance Rs (kOhm) from the raw
MQ-135 ADC code.  The `voltage > 0` branch guards the division; otherwise
the function returns `0.0`. -/
def calculate_Rs (raw_adc : ℚ) : ℚ :=
  let voltage := raw_adc * (VOLTAGE_RESOLUTION / ADC_MAX)
  if voltage > 0 then R_LOAD * (VOLTAGE_RESOLUTION / voltage - 1)
  else 0

/-- src/main.py lines 233-243: CO2-equivalent PPM from Rs.  The source
computes `A * math.pow(Rs / R0_CLEAN_AIR, B)` with `B = -2.65` and no guard
on the base: for base ≤ 0, `math.pow` with this non-integral negative
exponent is a domain error (negative base) or a pole error (zero base with
negative exponent) — Python raises `ValueError` instead of returning a
number.  The raise is modelled as `none`; a normal return is `some`. -/
noncomputable def get_mq135_ppm (Rs : ℚ) : Option ℝ :=
  if R0_CLEAN_AIR ≤ 0 ∨ R0_CALIBRATION_COMPLETE = false then some 0
  else
    let Rs_R0 : ℚ := Rs / R0_CLEAN_AIR
    if 0 < Rs_R0 then some (A * Real.rpow (Rs_R0 : ℝ) B)
    else none

/-! ## Particulate sampler (src/main.py lines 178-210) -/

/-- src/main.py lines 198-210, the pure tail of `read_dust_sensor`:
raw ADC code to voltage, voltage to density by the linear model
`0.172 * V - 0.0999`, negatives clamped to `0`; the function returns the
triple `(adc_value, voltage, dust_density)`. -/
def read_dust_sensor_conv (adc_value : ℚ) : ℚ × ℚ × ℚ :=
  let voltage := adc_value * (VOLTAGE_RESOLUTION / ADC_MAX)
  let dust_density := 0.172 * voltage - 0.0999
  let dust_density := if dust_density < 0 then 0 else dust_density
  (adc_value, voltage, dust_density)

/-! ## Hardware effect trace of the sampler (src/main.py lines 178-196) -/

/-- One hardware side effect performed by `read_dust_sensor`. -/
inductive DustEffect
  | setLed (v : ℕ)
  | sleepUs (us : ℕ)
  | adcRead
  deriving DecidableEq, Repr

/-- src/main.py lines 183-196, the effect sequence of `read_dust_sensor`:
drive the (active-low) LED pin to 0, busy-wait `SAMPLING_TIME` µs, take one
ADC conversion, drive the LED pin back to 1, busy-wait `SLEEP_TIME` µs. -/
def read_dust_sensor_effects : List DustEffect :=
  [DustEffect.setLed 0,
   DustEffect.sleepUs SAMPLING_TIME,
   DustEffect.adcRead,
   DustEffect.setLed 1,
   DustEffect.sleepUs SLEEP_TIME]

/-! ## Main-loop e-mail logic (src/main.py lines 304-377) -/

/-- The two mutable flags the loop carries across ticks
(src/main.py lines 305, 308). -/
structure NotifState where
  initial_email_sent : Bool
  alert_email_sent : Bool
  deriving DecidableEq, Fintype, Repr

/-- An outbound report attempt (a `send_email` call) made during a tick. -/
inductive Report
  | initialReport
  | alertReport
  deriving DecidableEq, Repr

/-- Per-tick inputs to the e-mail logic: connectivity, the two
classifications of this tick's reading, and the outcome the transport would
return for each of the two possible `send_email` calls. -/
structure TickInput where
  connected : Bool
  gas_status : GasQuality
  dust_status : DustQuality
  initial_send_ok : Bool
  alert_send_ok : Bool
  deriving DecidableEq, Fintype, Repr

/-- src/main.py line 348:
`is_bad_air = (gas_status == "BAD" or dust_status == "SMOKE/CRITICAL")`. -/
def is_bad_air (g : GasQuality) (d : DustQuality) : Bool :=
  g == GasQuality.BAD || d == DustQuality.SMOKE_CRITICAL

/-- src/main.py lines 346-377, the e-mail logic of one tick.  Block A
(lines 351-359) attempts the startup e-mail whenever it is still unsent and
WiFi is connected, setting the flag only on transport success.  Block B
(lines 362-372) is a separate `if` (not an `elif` of A): it attempts the
alert e-mail whenever the air is bad, no alert is active and WiFi is
connected, setting its flag only on success.  Block C (lines 375-377),
chained as `elif` to B, silently clears the alert flag when the air is good
again.  Returns the updated flags and the reports attempted, in order. -/
def email_tick (s : NotifState) (i : TickInput) : NotifState × List Report :=
  let bad := is_bad_air i.gas_status i.dust_status
  let sA := if !s.initial_email_sent && i.connected then
      (if i.initial_send_ok then { s with initial_email_sent := true } else s,
       [Report.initialReport])
    else (s, ([] : List Report))
  let sB := if bad && !sA.1.alert_email_sent && i.connected then
      (if i.alert_send_ok then { sA.1 with alert_email_sent := true } else sA.1,
       [Report.alertReport])
    else if !bad && sA.1.alert_email_sent then
      ({ sA.1 with alert_email_sent := false }, ([] : List Report))
    else (sA.1, ([] : List Report))
  (sB.1, sA.2 ++ sB.2)

/-- Iterate `email_tick` over a list of tick inputs, collecting the reports
attempted on each tick. -/
def email_run (s : NotifState) : List TickInput → NotifState × List (List Report)
  | [] => (s, [])
  | i :: rest =>
    ((email_run (email_tick s i).1 rest).1,
     (email_tick s i).2 :: (email_run (email_tick s i).1 rest).2)

/-- A connected tick with the given gas class, clean dust, and a transport
that succeeds; used for the hysteresis scenario. -/
def scenario_tick (g : GasQuality) : TickInput :=
  { connected := true
    gas_status := g
    dust_status := DustQuality.CLEAN
    initial_send_ok := true
    alert_send_ok := true }

/-! ## Main-loop temperature/humidity block (src/main.py lines 312-322) -/

/-- src/main.py lines 312-322: each tick starts with `temp = 0.0; hum = 0.0`
and only a successful DHT11 read overwrites them; on an `OSError` the tick
keeps the zeros.  The previous tick's pair is taken as a parameter only to
state that it is never consulted. -/
def tick_temp_hum (_prev : ℚ × ℚ) (dht_read : Option (ℚ × ℚ)) : ℚ × ℚ :=
  match dht_read with
  | some th => th
  | none => (0, 0)

end AirMonitor

namespace AirMonitor

/-- C5: the classifier boundary postconditions hold exactly as stated:
ties at a gas threshold go to the lower (stricter) class (`≤` in the code),
and `0.5` is already SMOKE_CRITICAL for dust (`≥` in the code). -/
theorem classifier_boundaries :
    classify_gas_quality 800 = GasQuality.GOOD ∧
    classify_gas_quality 800.0001 = GasQuality.MODERATE ∧
    classify_gas_quality 1500 = GasQuality.MODERATE ∧
    classify_gas_quality 1500.0001 = GasQuality.BAD ∧
    classify_dust_quality 0.15 = DustQuality.DUSTY_MODERATE ∧
    classify_dust_quality 0.4999 = DustQuality.DUSTY_MODERATE ∧
    classify_dust_quality 0.5 = DustQuality.SMOKE_CRITICAL := by
  refine ⟨?_, ?_, ?_, ?_, ?_, ?_, ?_⟩ <;>
    simp [classify_gas_quality, classify_dust_quality,
      SMOKE_THRESHOLD, DUSTY_THRESHOLD] <;> norm_num

/-- C6: both classifiers are total functions and are monotone with respect to
the severity orders GOOD < MODERATE < BAD and
CLEAN < DUSTY_MODERATE < SMOKE_CRITICAL. -/
theorem classifiers_monotone :
    (∀ p1 p2 : ℚ, p1 ≤ p2 →
      gas_severity (classify_gas_quality p1) ≤
        gas_severity (classify_gas_quality p2)) ∧
    (∀ d1 d2 : ℚ, d1 ≤ d2 →
      dust_severity (classify_dust_quality d1) ≤
        dust_severity (classify_dust_quality d2)) := by
  constructor
  · intro p1 p2 h
    unfold classify_gas_quality
    split_ifs <;> simp [gas_severity] <;> linarith
  · intro d1 d2 h
    unfold classify_dust_quality
    split_ifs <;> simp [dust_severity] <;> linarith

/-- Witness for C6 at concrete inputs 100 ≤ 1000 and 0.1 ≤ 0.6. -/
theorem classifiers_monotone_witness :
    gas_severity (classify_gas_quality 100) ≤
      gas_severity (classify_gas_quality 1000) ∧
    dust_severity (classify_dust_quality 0.1) ≤
      dust_severity (classify_dust_quality 0.6) :=
  ⟨classifiers_monotone.1 100 1000 (by norm_num),
   classifiers_monotone.2 0.1 0.6 (by norm_num)⟩

/-- C7: `calculate_Rs` first derives `voltage = raw * (Vref / AdcMax)`;
when that voltage is ≤ 0 it returns 0 (no division), in particular at raw
code 0, and when it is positive it returns `R_LOAD * (Vref / voltage - 1)`. -/
theorem calculate_Rs_spec :
    (∀ raw_adc : ℚ,
      (raw_adc * (VOLTAGE_RESOLUTION / ADC_MAX) ≤ 0 → calculate_Rs raw_adc = 0) ∧
      (0 < raw_adc * (VOLTAGE_RESOLUTION / ADC_MAX) →
        calculate_Rs raw_adc =
          R_LOAD * (VOLTAGE_RESOLUTION /
            (raw_adc * (VOLTAGE_RESOLUTION / ADC_MAX)) - 1))) ∧
    calculate_Rs 0 = 0 := by
  constructor
  · intro raw_adc
    constructor
    · intro h
      simp only [calculate_Rs]
      rw [if_neg (by linarith)]
    · intro h
      simp only [calculate_Rs]
      rw [if_pos h]
  · simp [calculate_Rs]

/-- Witness for C7: the zero branch at raw code 0 and the positive branch at
raw code 2000. -/
theorem calculate_Rs_spec_witness :
    calculate_Rs 0 = 0 ∧
    calculate_Rs 2000 =
      R_LOAD * (VOLTAGE_RESOLUTION / (2000 * (VOLTAGE_RESOLUTION / ADC_MAX)) - 1) :=
  ⟨(calculate_Rs_spec.1 0).1
      (by norm_num [VOLTAGE_RESOLUTION, ADC_MAX]),
   (calculate_Rs_spec.1 2000).2
      (by norm_num [VOLTAGE_RESOLUTION, ADC_MAX])⟩

/-- C8: the density returned by the dust sampler is never negative, and any
raw code whose linear-model value `0.172 * V - 0.0999` is negative yields a
density of exactly 0. -/
theorem dust_density_clamped :
    ∀ adc_value : ℚ,
      0 ≤ (read_dust_sensor_conv adc_value).2.2 ∧
      (0.172 * (adc_value * (VOLTAGE_RESOLUTION / ADC_MAX)) - 0.0999 < 0 →
        (read_dust_sensor_conv adc_value).2.2 = 0) := by
  intro adc_value
  constructor
  · simp only [read_dust_sensor_conv]
    split_ifs with h
    · exact le_rfl
    · linarith
  · intro h
    simp only [read_dust_sensor_conv]
    rw [if_pos h]

/-- Witness for C8 at raw code 0: the linear model gives `-0.0999 < 0` and
the returned density is exactly 0. -/
theorem dust_density_clamped_witness :
    0 ≤ (read_dust_sensor_conv 0).2.2 ∧ (read_dust_sensor_conv 0).2.2 = 0 :=
  ⟨(dust_density_clamped 0).1,
   (dust_density_clamped 0).2
      (by norm_num [VOLTAGE_RESOLUTION, ADC_MAX])⟩

/-- C2 is a code bug: `get_mq135_ppm` has no `Rs ≤ 0` guard, so with the
shipped calibration (`R0_CLEAN_AIR = 10 > 0`, calibration complete) the call
`math.pow(Rs / R0, -2.65)` at `Rs = 0` is a domain/pole error (modelled as
`none`), not a return of 0 PPM.  `Rs = 0` is exactly what the composed
pipeline produces at raw ADC 0 (zero voltage, guarded branch) and also at
raw ADC 4095 (voltage = Vref makes the divider formula 0). -/
theorem gas_ppm_domain_bug :
    get_mq135_ppm 0 = none ∧
    get_mq135_ppm (calculate_Rs 0) = none ∧
    get_mq135_ppm (calculate_Rs 4095) = none := by
  have hRs0 : calculate_Rs 0 = 0 := by
    norm_num [calculate_Rs, VOLTAGE_RESOLUTION, ADC_MAX]
  have hRs4095 : calculate_Rs 4095 = 0 := by
    norm_num [calculate_Rs, VOLTAGE_RESOLUTION, ADC_MAX, R_LOAD]
  have h0 : get_mq135_ppm 0 = none := by
    norm_num [get_mq135_ppm, R0_CLEAN_AIR, R0_CALIBRATION_COMPLETE]
  exact ⟨h0, by rw [hRs0]; exact h0, by rw [hRs4095]; exact h0⟩

/-- Counterexample to C1: at the start of a run (neither flag set), with
WiFi connected, bad air and a transport that succeeds, one tick attempts
TWO outbound reports — the startup e-mail block and the alert e-mail block
are two independent `if` statements, not an `if`/`elif`. -/
theorem single_report_per_tick_refuted :
    ¬ ((email_tick ⟨false, false⟩
        ⟨true, GasQuality.BAD, DustQuality.CLEAN, true, true⟩).2.length ≤ 1) := by
  decide

/-- C1 amended: a tick attempts at most two reports, and on a tick where
the initial report is still due, connectivity is up, bad air is detected
and no alert is active, both reports are attempted, the startup report
first — the two sends are ordered but not mutually exclusive. -/
theorem email_tick_attempt_order :
    ∀ (s : NotifState) (i : TickInput),
      (email_tick s i).2.length ≤ 2 ∧
      (s.initial_email_sent = false → i.connected = true →
        is_bad_air i.gas_status i.dust_status = true →
        s.alert_email_sent = false →
        (email_tick s i).2 = [Report.initialReport, Report.alertReport]) := by
  decide

/-- Witness for C1's amended statement at the concrete fresh-start tick. -/
theorem email_tick_attempt_order_witness :
    (email_tick ⟨false, false⟩
        ⟨true, GasQuality.BAD, DustQuality.CLEAN, true, true⟩).2 =
      [Report.initialReport, Report.alertReport] :=
  (email_tick_attempt_order ⟨false, false⟩
      ⟨true, GasQuality.BAD, DustQuality.CLEAN, true, true⟩).2
    rfl rfl rfl rfl

/-- C3: with connectivity always up and a transport that always succeeds,
the classification sequence GOOD, BAD, BAD, GOOD, BAD yields the per-tick
report lists [[Initial], [Alert], [], [], [Alert]] — exactly two alert
reports, one per contiguous bad-air episode, none on the recovery tick —
and after the recovery (fourth) tick the alert flag is cleared. -/
theorem alert_hysteresis_scenario :
    (email_run ⟨false, false⟩
        [scenario_tick GasQuality.GOOD, scenario_tick GasQuality.BAD,
         scenario_tick GasQuality.BAD, scenario_tick GasQuality.GOOD,
         scenario_tick GasQuality.BAD]).2 =
      [[Report.initialReport], [Report.alertReport], [], [],
       [Report.alertReport]] ∧
    ((email_run ⟨false, false⟩
        [scenario_tick GasQuality.GOOD, scenario_tick GasQuality.BAD,
         scenario_tick GasQuality.BAD, scenario_tick GasQuality.GOOD,
         scenario_tick GasQuality.BAD]).2.flatten.count Report.alertReport = 2) ∧
    ((email_run ⟨false, false⟩
        [scenario_tick GasQuality.GOOD, scenario_tick GasQuality.BAD,
         scenario_tick GasQuality.BAD,
         scenario_tick GasQuality.GOOD]).1.alert_email_sent = false) := by
  decide

/-- The startup flag after one tick is the old flag or (connected and the
transport succeeded); it is set by no other path. -/
lemma email_tick_initial_flag :
    ∀ (s : NotifState) (i : TickInput),
      (email_tick s i).1.initial_email_sent =
        (s.initial_email_sent || (i.connected && i.initial_send_ok)) := by
  decide

/-- A tick attempts the startup report exactly when the flag is still unset
and WiFi is connected. -/
lemma email_tick_initial_attempt :
    ∀ (s : NotifState) (i : TickInput),
      Report.initialReport ∈ (email_tick s i).2 ↔
        s.initial_email_sent = false ∧ i.connected = true := by
  decide

/-- C4: the startup flag never resets once set; after any tick it equals
the old flag or (connected and transport success), so it is set exactly by
the first successful connected attempt; the startup report is attempted
exactly when the flag is unset and WiFi is up; and along any run whose
transport always fails the flag stays false and every connected tick
attempts the startup report. -/
theorem initial_report_once_and_retry :
    (∀ (s : NotifState) (i : TickInput), s.initial_email_sent = true →
      (email_tick s i).1.initial_email_sent = true) ∧
    (∀ (s : NotifState) (i : TickInput),
      (email_tick s i).1.initial_email_sent =
        (s.initial_email_sent || (i.connected && i.initial_send_ok))) ∧
    (∀ (s : NotifState) (i : TickInput),
      Report.initialReport ∈ (email_tick s i).2 ↔
        s.initial_email_sent = false ∧ i.connected = true) ∧
    (∀ ticks : List TickInput, (∀ i ∈ ticks, i.initial_send_ok = false) →
      ∀ s : NotifState, s.initial_email_sent = false →
        (email_run s ticks).1.initial_email_sent = false ∧
        ∀ p ∈ (email_run s ticks).2.zip ticks,
          p.2.connected = true → Report.initialReport ∈ p.1) := by
  refine ⟨by decide, by decide, by decide, ?_⟩
  intro ticks
  induction ticks with
  | nil =>
    intro _ s hs
    exact ⟨hs, by simp [email_run]⟩
  | cons i rest ih =>
    intro h s hs
    have hfail : i.initial_send_ok = false := h i (List.mem_cons_self i rest)
    have hrest : ∀ j ∈ rest, j.initial_send_ok = false :=
      fun j hj => h j (List.mem_cons_of_mem i hj)
    have hs1 : (email_tick s i).1.initial_email_sent = false := by
      rw [email_tick_initial_flag s i, hs, hfail]
      simp
    have hmain := ih hrest (email_tick s i).1 hs1
    constructor
    · simpa [email_run] using hmain.1
    · intro p hp hpc
      simp only [email_run, List.zip_cons_cons, List.mem_cons] at hp
      rcases hp with hcase | hcase
      · subst hcase
        exact (email_tick_initial_attempt s i).mpr ⟨hs, hpc⟩
      · exact hmain.2 p hcase hpc

/-- Witness for C4 at the one-tick run whose transport fails while
connected: the flag stays false. -/
theorem initial_report_once_and_retry_witness :
    (email_run ⟨false, false⟩
        [⟨true, GasQuality.GOOD, DustQuality.CLEAN, false, false⟩]).1.initial_email_sent
      = false :=
  (initial_report_once_and_retry.2.2.2
    [⟨true, GasQuality.GOOD, DustQuality.CLEAN, false, false⟩]
    (by decide) ⟨false, false⟩ rfl).1

/-- C9: the sampler performs exactly the five-step sequence LED on (drive
the active-low pin to 0), wait SAMPLING_TIME = 280 µs, one ADC conversion,
LED off (pin to 1), wait SLEEP_TIME = 9680 µs; the configured LED pulse
(PULSE_WIDTH = 320 µs, covering the settle wait plus the conversion) and
the rest wait together make the nominal 10 ms (10000 µs) cycle. -/
theorem dust_sampler_effect_cycle :
    read_dust_sensor_effects =
      [DustEffect.setLed 0, DustEffect.sleepUs 280, DustEffect.adcRead,
       DustEffect.setLed 1, DustEffect.sleepUs 9680] ∧
    SAMPLING_TIME = 280 ∧ SLEEP_TIME = 9680 ∧
    PULSE_WIDTH + SLEEP_TIME = 10000 := by
  decide

/-- C10: a tick's temperature/humidity pair never depends on the previous
tick's pair, and on a faulted DHT11 read it is exactly (0, 0). -/
theorem temp_hum_zeroed_on_fault :
    ∀ (prev : ℚ × ℚ) (dht_read : Option (ℚ × ℚ)),
      (dht_read = none → tick_temp_hum prev dht_read = (0, 0)) ∧
      (∀ prev2 : ℚ × ℚ,
        tick_temp_hum prev dht_read = tick_temp_hum prev2 dht_read) := by
  intro prev r
  constructor
  · rintro rfl
    rfl
  · intro prev2
    cases r <;> rfl

/-- Witness for C10: a faulted read after a tick that saw 25 °C / 60 %
reports exactly (0, 0). -/
theorem temp_hum_zeroed_on_fault_witness :
    tick_temp_hum (25, 60) none = (0, 0) :=
  (temp_hum_zeroed_on_fault (25, 60) none).1 rfl

end AirMonitor
